import Mathlib

/-!
Verification development for the Deutsch-Meister German-learning application.

The embedding below follows the TypeScript source:
* `src/types.ts` — the shared data model,
* `src/services/geminiService.ts` — the Content Service operations (each
  operation is modelled as a function from the outcome of the single
  `generateContent` network call to the value it returns or the domain
  error it throws; `JSON.parse` is modelled by an `Option Json` field:
  `none` stands for a `SyntaxError`),
* the application component (`src/unnamed/part_000`) — state-transition
  handlers (`handleGenerate`, quiz scoring, favorite-list and saved-text
  management, export).
-/

namespace DeutschMeister

/-- CEFR proficiency level, from `src/types.ts` (`"A2" | "B1" | "B2" | "C1"`). -/
inductive CEFRLevel where
  | A2
  | B1
  | B2
  | C1
deriving DecidableEq

/-- String form of a level, as it appears interpolated into prompts and exports. -/
def CEFRLevel.str : CEFRLevel → String
  | .A2 => "A2"
  | .B1 => "B1"
  | .B2 => "B2"
  | .C1 => "C1"

/-- `FavoriteWord` from `src/types.ts`. -/
structure FavoriteWord where
  german : String
  turkish : String
deriving DecidableEq

/-- `FavoriteList` from `src/types.ts`. -/
structure FavoriteList where
  id : String
  name : String
  words : List FavoriteWord
deriving DecidableEq

/-- `TranslationPair` from `src/types.ts`. -/
structure TranslationPair where
  german : String
  turkish : String
deriving DecidableEq

/-- `QuizQuestion` from `src/types.ts`. -/
structure QuizQuestion where
  question : String
  options : List String
  correctAnswer : String
deriving DecidableEq

instance : Inhabited QuizQuestion := ⟨⟨"", [], ""⟩⟩

/-- `WordExplanation` from `src/types.ts`. -/
structure WordExplanation where
  explanation : String
  examples : List String
deriving DecidableEq

/-- The `{ clozeText, answers }` shape produced by the cloze generators. -/
structure ClozeExercise where
  clozeText : String
  answers : List String
deriving DecidableEq

/-- `SavedText` (declared in the application component). -/
structure SavedText where
  title : String
  text : String
  level : CEFRLevel
  translations : List TranslationPair
  quiz : List QuizQuestion
deriving DecidableEq

/-- A JSON value, the result of a successful `JSON.parse`.  The service
functions return this untyped value directly (`return parsed` on an `any`). -/
inductive Json where
  | null
  | bool (b : Bool)
  | num (n : Int)
  | str (s : String)
  | arr (elems : List Json)
  | obj (fields : List (String × Json))

/-- First field with the given name in a JSON object's field list. -/
def lookupField : List (String × Json) → String → Option Json
  | [], _ => none
  | (k, v) :: rest, key => if k = key then some v else lookupField rest key

/-- Property access `j.key` on a JSON value. -/
def Json.getField (j : Json) (key : String) : Option Json :=
  match j with
  | .obj fields => lookupField fields key
  | _ => none

/-- Reads a JSON array of strings, as declared by the `ARRAY` of `STRING`
response schemas in `geminiService.ts`. -/
def asStringList : List Json → Option (List String)
  | [] => some []
  | .str s :: rest => (asStringList rest).map (fun t => s :: t)
  | _ => none

/-- The `{ clozeText: STRING, answers: ARRAY of STRING }` response schema
declared by `generateClozeTest` and `generateClozeTestFromText`. -/
def decodeCloze (j : Json) : Option ClozeExercise :=
  match j.getField "clozeText", j.getField "answers" with
  | some (.str t), some (.arr xs) =>
      match asStringList xs with
      | some ans => some ⟨t, ans⟩
      | none => none
  | _, _ => none

/-- One entry of the quiz response schema (`question`, `options`,
`correctAnswer`) declared by `generateQuiz`. -/
def decodeQuizQuestion (j : Json) : Option QuizQuestion :=
  match j.getField "question", j.getField "options", j.getField "correctAnswer" with
  | some (.str q), some (.arr xs), some (.str c) =>
      match asStringList xs with
      | some opts => some ⟨q, opts, c⟩
      | none => none
  | _, _, _ => none

/-- Reads every element of a JSON array as a quiz question. -/
def decodeQuizQuestionList : List Json → Option (List QuizQuestion)
  | [] => some []
  | j :: rest =>
      match decodeQuizQuestion j, decodeQuizQuestionList rest with
      | some q, some qs => some (q :: qs)
      | _, _ => none

/-- The `ARRAY` of question objects response schema declared by `generateQuiz`. -/
def decodeQuiz (j : Json) : Option (List QuizQuestion) :=
  match j with
  | .arr xs => decodeQuizQuestionList xs
  | _ => none

/-- One entry of the sentence-translation response schema (`german`,
`turkish`) declared by `translateTextSentenceBySentence`. -/
def decodeTranslationPair (j : Json) : Option TranslationPair :=
  match j.getField "german", j.getField "turkish" with
  | some (.str g), some (.str t) => some ⟨g, t⟩
  | _, _ => none

/-- Reads every element of a JSON array as a translation pair. -/
def decodeTranslationPairList : List Json → Option (List TranslationPair)
  | [] => some []
  | j :: rest =>
      match decodeTranslationPair j, decodeTranslationPairList rest with
      | some p, some ps => some (p :: ps)
      | _, _ => none

/-- The `ARRAY` of pair objects response schema declared by
`translateTextSentenceBySentence`. -/
def decodeTranslationPairs (j : Json) : Option (List TranslationPair) :=
  match j with
  | .arr xs => decodeTranslationPairList xs
  | _ => none

/-- Number of non-overlapping occurrences of the blank marker `[___]`,
scanned left to right. -/
def countBlanks : List Char → Nat
  | '[' :: '_' :: '_' :: '_' :: ']' :: rest => countBlanks rest + 1
  | _ :: rest => countBlanks rest
  | [] => 0

/-- Occurrences of the blank marker `[___]` in a string. -/
def countMarkers (s : String) : Nat :=
  countBlanks s.data

/-- Outcome of the `generateContent` call for the plain-text operations:
either the promise rejected (carrying some exception message) or it
resolved with `response.text`. -/
inductive TextCallResult where
  | transportError (message : String)
  | success (text : String)

/-- Outcome of the `generateContent` call followed by `JSON.parse` for the
structured operations: the call rejected, or it resolved with
`response.text` and `JSON.parse` either threw a `SyntaxError` (`none`) or
produced a JSON value. -/
inductive JsonCallResult where
  | transportError (message : String)
  | success (raw : String) (parsed : Option Json)

/-- `generateText` (`geminiService.ts`): returns `response.text`, or throws a
fixed Turkish message on any error. -/
def generateText : TextCallResult → Except String String
  | .transportError _ => .error "Metin oluşturulurken bir hata oluştu. Lütfen tekrar deneyin."
  | .success t => .ok t

/-- `response.text.trim().replace(/^"|"$/g, '')` in `generateRandomTheme`:
strips one leading and one trailing quote character. -/
def stripEdgeQuotes (s : String) : String :=
  let s1 := if s.startsWith "\"" then s.drop 1 else s
  if s1.endsWith "\"" then s1.dropRight 1 else s1

/-- `generateRandomTheme` (`geminiService.ts`). -/
def generateRandomTheme : TextCallResult → Except String String
  | .transportError _ => .error "Rastgele tema oluşturulurken bir hata oluştu."
  | .success t => .ok (stripEdgeQuotes t.trim)

/-- `translateText` (`geminiService.ts`). -/
def translateText : TextCallResult → Except String String
  | .transportError _ => .error "Çeviri sırasında bir hata oluştu."
  | .success t => .ok t

/-- `translateWord` (`geminiService.ts`). -/
def translateWord : TextCallResult → Except String String
  | .transportError _ => .error "Kelime çevirisi sırasında bir hata oluştu."
  | .success t => .ok t.trim

/-- `translateTextSentenceBySentence` (`geminiService.ts`): one `catch` block
maps both a rejected call and a `JSON.parse` failure to the same message;
a parsed value is returned as-is (`return parsed`, untyped). -/
def translateTextSentenceBySentence : JsonCallResult → Except String Json
  | .transportError _ => .error "Cümle çevirisi sırasında bir hata oluştu."
  | .success _ none => .error "Cümle çevirisi sırasında bir hata oluştu."
  | .success _ (some j) => .ok j

/-- `generateQuiz` (`geminiService.ts`): a `SyntaxError` from `JSON.parse`
gets its own message; any other failure gets the generic one; a parsed
value is returned as-is. -/
def generateQuiz : JsonCallResult → Except String Json
  | .transportError _ => .error "Test oluşturulurken bir hata oluştu."
  | .success _ none =>
      .error "Test oluşturulamadı çünkü modelden geçersiz bir yanıt alındı. Lütfen farklı bir metinle tekrar deneyin."
  | .success _ (some j) => .ok j

/-- `explainAndExampleWord` (`geminiService.ts`). -/
def explainAndExampleWord : JsonCallResult → Except String Json
  | .transportError _ => .error "Kelime açıklanırken bir hata oluştu."
  | .success _ none => .error "Kelime açıklanırken bir hata oluştu."
  | .success _ (some j) => .ok j

/-- `generateClozeTest` (`geminiService.ts`). -/
def generateClozeTest : JsonCallResult → Except String Json
  | .transportError _ => .error "Öğrenme modu içeriği oluşturulurken bir hata oluştu."
  | .success _ none => .error "Öğrenme modu içeriği oluşturulurken bir hata oluştu."
  | .success _ (some j) => .ok j

/-- `generateDistractors` (`geminiService.ts`). -/
def generateDistractors : JsonCallResult → Except String Json
  | .transportError _ => .error "Alternatif şıklar oluşturulurken bir hata oluştu."
  | .success _ none => .error "Alternatif şıklar oluşturulurken bir hata oluştu."
  | .success _ (some j) => .ok j

/-- `generateClozeTestFromText` (`geminiService.ts`). -/
def generateClozeTestFromText : JsonCallResult → Except String Json
  | .transportError _ => .error "Metinden öğrenme modu içeriği oluşturulurken bir hata oluştu."
  | .success _ none => .error "Metinden öğrenme modu içeriği oluşturulurken bir hata oluştu."
  | .success _ (some j) => .ok j

/-- The application component's state: the `useState` fields of `App` that
the modelled handlers read or write.  The quiz answer map
`{[key: number]: string}` is modelled as an association list consulted with
`List.lookup` (an absent key plays the role of `undefined`). -/
structure AppState where
  level : CEFRLevel
  theme : String
  wordCount : Nat
  mood : String
  isLoading : Bool
  error : Option String
  generatedText : String
  translatedSentences : List TranslationPair
  quizQuestions : List QuizQuestion
  favoriteLists : List FavoriteList
  savedTexts : List SavedText
  currentQuizQuestion : Nat
  quizAnswers : List (Nat × String)
  quizScore : Option Nat
  isSpeaking : Bool
  speakingSentenceIndex : Option Nat
  isTextClozeMode : Bool
  textClozeData : Option ClozeExercise

/-- The synchronous prefix of `handleGenerate`: the thirteen state setters it
runs before awaiting the first Content Service call. -/
def handleGenerateClear (s : AppState) (levelToUse : CEFRLevel)
    (themeToUse moodToUse : String) : AppState :=
  { s with
    isLoading := true
    error := none
    generatedText := ""
    translatedSentences := []
    quizQuestions := []
    quizScore := none
    currentQuizQuestion := 0
    quizAnswers := []
    isTextClozeMode := false
    textClozeData := none
    level := levelToUse
    theme := themeToUse
    mood := moodToUse }

/-- Lower-casing of one character, covering the alphabet the application
handles (ASCII letters and the German umlauts); other characters are
unchanged. -/
def lowerChar : Char → Char
  | 'A' => 'a' | 'B' => 'b' | 'C' => 'c' | 'D' => 'd' | 'E' => 'e' | 'F' => 'f'
  | 'G' => 'g' | 'H' => 'h' | 'I' => 'i' | 'J' => 'j' | 'K' => 'k' | 'L' => 'l'
  | 'M' => 'm' | 'N' => 'n' | 'O' => 'o' | 'P' => 'p' | 'Q' => 'q' | 'R' => 'r'
  | 'S' => 's' | 'T' => 't' | 'U' => 'u' | 'V' => 'v' | 'W' => 'w' | 'X' => 'x'
  | 'Y' => 'y' | 'Z' => 'z' | 'Ä' => 'ä' | 'Ö' => 'ö' | 'Ü' => 'ü'
  | c => c

/-- `String.prototype.toLowerCase()`. -/
def toLowerCase (s : String) : String :=
  String.mk (s.data.map lowerChar)

/-- `handleAddWordToList`: appends the word to the list with the given id
unless that list already holds a word with the same `german` term up to
`toLowerCase`. -/
def handleAddWordToList (word : FavoriteWord) (listId : String)
    (lists : List FavoriteList) : List FavoriteList :=
  lists.map fun list =>
    if list.id == listId then
      if list.words.any (fun w => toLowerCase w.german == toLowerCase word.german) then list
      else { list with words := list.words ++ [word] }
    else list

/-- `handleRemoveWordFromList`: filters out of the list with the given id
every word whose `german` term matches up to `toLowerCase`. -/
def handleRemoveWordFromList (germanWord : String) (listId : String)
    (lists : List FavoriteList) : List FavoriteList :=
  lists.map fun list =>
    if list.id == listId then
      { list with
        words := list.words.filter fun w => !(toLowerCase w.german == toLowerCase germanWord) }
    else list

/-- `savedTexts.some(t => t.text === generatedText)` (`isTextSaved`). -/
def isTextSaved (savedTexts : List SavedText) (generatedText : String) : Bool :=
  savedTexts.any fun t => t.text == generatedText

/-- `handleSaveText`: a no-op when the generated text is empty (falsy) or an
entry with the identical text already exists, otherwise prepends a new
`SavedText` snapshot. -/
def handleSaveText (generatedText theme : String) (level : CEFRLevel)
    (translatedSentences : List TranslationPair) (quizQuestions : List QuizQuestion)
    (savedTexts : List SavedText) : List SavedText :=
  if generatedText == "" || isTextSaved savedTexts generatedText then savedTexts
  else
    { title := theme, text := generatedText, level := level,
      translations := translatedSentences, quiz := quizQuestions } :: savedTexts

/-- `handleDeleteText`: keeps the entries whose text differs from the target's. -/
def handleDeleteText (textToDelete : SavedText) (savedTexts : List SavedText) :
    List SavedText :=
  savedTexts.filter fun t => !(t.text == textToDelete.text)

/-- The template literal of `handleExportTexts`:
`--- ${t.title} (${t.level}) ---\n\n${t.text}\n\n`. -/
def savedTextBlock (t : SavedText) : String :=
  "--- " ++ t.title ++ " (" ++ t.level.str ++ ") ---" ++ "\n\n" ++ t.text ++ "\n\n"

/-- `Array.prototype.join(sep)`: the elements with `sep` between consecutive
ones. -/
def joinWith (sep : String) : List String → String
  | [] => ""
  | [a] => a
  | a :: b :: rest => a ++ sep ++ joinWith sep (b :: rest)

/-- `handleExportTexts`: returns early (no file) on an empty archive,
otherwise the blocks joined with `'\n'`. -/
def handleExportTexts (savedTexts : List SavedText) : Option String :=
  if savedTexts.length == 0 then none
  else some (joinWith "\n" (savedTexts.map savedTextBlock))

/-- Modelled from the spec: the export format the spec describes — a plain
concatenation of one titled block per entry, with no separator between
blocks.  Used only to compare against `handleExportTexts`. -/
def exportSpecConcat (savedTexts : List SavedText) : String :=
  String.join (savedTexts.map savedTextBlock)

/-- The amended export format: the titled blocks in archive order with a
single `'\n'` separator between consecutive blocks. -/
def exportJoined : List SavedText → String
  | [] => ""
  | [t] => savedTextBlock t
  | t :: t2 :: rest => savedTextBlock t ++ "\n" ++ exportJoined (t2 :: rest)

/-- `submitQuiz`: folds over the questions with their indices, incrementing
the score whenever the recorded answer strictly equals `correctAnswer`
(`quizAnswers[index] === q.correctAnswer`; an absent answer is `undefined`
and never equal). -/
def submitQuiz (quizQuestions : List QuizQuestion)
    (quizAnswers : List (Nat × String)) : Nat :=
  quizQuestions.enum.foldl
    (fun score p => if quizAnswers.lookup p.1 == some p.2.correctAnswer then score + 1 else score)
    0

/-! ## Theorems -/

/-- C6: adding a word to a favorite list is idempotent under case-insensitive
term match: if every list carrying the target id already contains a word whose
source-language term equals the new word's term case-insensitively, the add
operation leaves the list collection unchanged; and adding the same word twice
gives the same collection as adding it once (so the list size is unchanged by
the second add). -/
theorem addWordToList_idempotent (lists : List FavoriteList) (word : FavoriteWord)
    (listId : String) :
    ((∀ l ∈ lists, l.id = listId →
        l.words.any (fun w => toLowerCase w.german == toLowerCase word.german) = true) →
      handleAddWordToList word listId lists = lists)
    ∧ handleAddWordToList word listId (handleAddWordToList word listId lists)
        = handleAddWordToList word listId lists := by
  constructor
  · intro h
    unfold handleAddWordToList
    conv_rhs => rw [← List.map_id lists]
    refine List.map_congr_left fun l hl => ?_
    by_cases hid : l.id == listId
    · have hid2 : l.id = listId := by simpa using hid
      simp [hid, h l hl hid2]
    · simp [hid]
  · unfold handleAddWordToList
    rw [List.map_map]
    refine List.map_congr_left fun l hl => ?_
    by_cases hid : l.id == listId
    · by_cases hany : l.words.any (fun w => toLowerCase w.german == toLowerCase word.german)
      · simp [Function.comp, hid, hany]
      · simp [Function.comp, hid, hany, List.any_append]
    · simp [Function.comp, hid]

/-- C6 witness: a list that already contains "Haus" is unchanged when "haus"
is added to it. -/
theorem addWordToList_idempotent_witness :
    handleAddWordToList ⟨"haus", "ev"⟩ "1" [⟨"1", "Liste", [⟨"Haus", "ev"⟩]⟩]
      = [⟨"1", "Liste", [⟨"Haus", "ev"⟩]⟩] :=
  (addWordToList_idempotent [⟨"1", "Liste", [⟨"Haus", "ev"⟩]⟩] ⟨"haus", "ev"⟩ "1").1
    (by decide)

/-- C7: saving the current text is a no-op when an entry with exactly the same
body text already exists; saving twice gives the same archive as saving once;
after a fresh save exactly one entry carries the saved text; and delete keeps
exactly the entries whose body text differs from the target's. -/
theorem saveText_idempotent_delete_exact (generatedText theme : String)
    (level : CEFRLevel) (translations : List TranslationPair)
    (quiz : List QuizQuestion) (savedTexts : List SavedText) (target : SavedText) :
    (isTextSaved savedTexts generatedText = true →
      handleSaveText generatedText theme level translations quiz savedTexts = savedTexts)
    ∧ handleSaveText generatedText theme level translations quiz
        (handleSaveText generatedText theme level translations quiz savedTexts)
      = handleSaveText generatedText theme level translations quiz savedTexts
    ∧ (isTextSaved savedTexts generatedText = false → generatedText ≠ "" →
        (handleSaveText generatedText theme level translations quiz savedTexts).countP
          (fun t => t.text == generatedText) = 1)
    ∧ (∀ t, t ∈ handleDeleteText target savedTexts ↔
        t ∈ savedTexts ∧ t.text ≠ target.text) := by
  refine ⟨?_, ?_, ?_, ?_⟩
  · intro h
    simp [handleSaveText, h]
  · by_cases hg : generatedText == ""
    · simp [handleSaveText, hg]
    · by_cases hs : isTextSaved savedTexts generatedText
      · simp [handleSaveText, hg, hs]
      · have hstep : handleSaveText generatedText theme level translations quiz savedTexts
            = { title := theme, text := generatedText, level := level,
                translations := translations, quiz := quiz } :: savedTexts := by
          simp [handleSaveText, hg, hs]
        rw [hstep]
        simp [handleSaveText, isTextSaved, hg]
  · intro hs hg
    have hg2 : (generatedText == "") = false := by simpa using hg
    have hz : savedTexts.countP (fun t => t.text == generatedText) = 0 := by
      refine List.countP_eq_zero.2 fun t ht => ?_
      have := List.any_eq_false.1 hs t ht
      simpa using this
    simp [handleSaveText, hg2, hs, List.countP_cons, hz]
  · intro t
    simp [handleDeleteText, List.mem_filter]

/-- C7 witness: saving onto an archive that already holds the text is a no-op,
and a fresh save yields exactly one entry with the saved text. -/
theorem saveText_idempotent_delete_exact_witness :
    handleSaveText "ein Text" "Thema" CEFRLevel.A2 [] []
        [⟨"Thema", "ein Text", CEFRLevel.A2, [], []⟩]
      = [⟨"Thema", "ein Text", CEFRLevel.A2, [], []⟩]
    ∧ (handleSaveText "ein Text" "Thema" CEFRLevel.A2 [] [] []).countP
        (fun t => t.text == "ein Text") = 1 :=
  ⟨(saveText_idempotent_delete_exact "ein Text" "Thema" CEFRLevel.A2 [] []
      [⟨"Thema", "ein Text", CEFRLevel.A2, [], []⟩] ⟨"", "", CEFRLevel.A2, [], []⟩).1
      (by decide),
   (saveText_idempotent_delete_exact "ein Text" "Thema" CEFRLevel.A2 [] [] []
      ⟨"", "", CEFRLevel.A2, [], []⟩).2.2.1 (by decide) (by decide)⟩

/-- C10: removing a word matches case-insensitively and removes every matching
entry of the target list: position by position, a list with a different id is
returned unchanged, and the list with the target id keeps its id and name,
contains no word matching the removed term case-insensitively, keeps the
surviving words in their original order (a sublist), and keeps every
non-matching word. -/
theorem removeWordFromList_spec (lists : List FavoriteList)
    (germanWord listId : String) :
    List.Forall₂ (fun l r =>
        (l.id ≠ listId → r = l) ∧
        (l.id = listId →
          r.id = l.id ∧ r.name = l.name ∧
          (∀ w ∈ r.words, toLowerCase w.german ≠ toLowerCase germanWord) ∧
          r.words.Sublist l.words ∧
          (∀ w ∈ l.words, toLowerCase w.german ≠ toLowerCase germanWord → w ∈ r.words)))
      lists (handleRemoveWordFromList germanWord listId lists) := by
  unfold handleRemoveWordFromList
  rw [List.forall₂_map_right_iff, List.forall₂_same]
  intro l _
  by_cases hid : l.id == listId
  · have hid2 : l.id = listId := by simpa using hid
    refine ⟨fun hne => absurd hid2 hne, fun _ => ?_⟩
    rw [if_pos hid]
    refine ⟨rfl, rfl, ?_, List.filter_sublist _, ?_⟩
    · intro w hw
      have := (List.mem_filter.1 hw).2
      simpa using this
    · intro w hw hne
      refine List.mem_filter.2 ⟨hw, ?_⟩
      simpa using hne
  · have hid2 : ¬ l.id = listId := by simpa using hid
    exact ⟨fun _ => by simp [hid], fun he => absurd he hid2⟩

/-- C10 witness: a list with a non-matching id is unchanged by the removal. -/
theorem removeWordFromList_spec_witness :
    handleRemoveWordFromList "haus" "1" [⟨"2", "Andere", [⟨"Haus", "ev"⟩]⟩]
      = [⟨"2", "Andere", [⟨"Haus", "ev"⟩]⟩] := by
  have h := removeWordFromList_spec [⟨"2", "Andere", [⟨"Haus", "ev"⟩]⟩] "haus" "1"
  obtain ⟨r, u, hrel, hrest, hu⟩ := List.forall₂_cons_left_iff.1 h
  have hu2 : u = [] := List.forall₂_nil_left_iff.1 hrest
  have hr : r = ⟨"2", "Andere", [⟨"Haus", "ev"⟩]⟩ := hrel.1 (by decide)
  rw [hu, hr, hu2]

/-- Folding a conditional increment over a list starting from `n` counts the
elements satisfying the predicate. -/
theorem foldl_if_eq_countP {α : Type} (p : α → Bool) :
    ∀ (l : List α) (n : Nat),
      l.foldl (fun s x => if p x then s + 1 else s) n = n + l.countP p := by
  intro l
  induction l with
  | nil => intro n; simp
  | cons a l ih =>
      intro n
      by_cases h : p a
      · simp [List.foldl_cons, List.countP_cons, h, ih]
        omega
      · simp [List.foldl_cons, List.countP_cons, h, ih]

/-- Counting matches over an index-tagged suffix equals counting over the
corresponding index range. -/
theorem countP_enumFrom_lookup (answers : List (Nat × String)) :
    ∀ (qs : List QuizQuestion) (k : Nat),
      (qs.enumFrom k).countP (fun p => answers.lookup p.1 == some p.2.correctAnswer)
        = (List.range' k qs.length).countP (fun i =>
            answers.lookup i == some ((qs.getD (i - k) default).correctAnswer)) := by
  intro qs
  induction qs with
  | nil => intro k; simp
  | cons q qs ih =>
      intro k
      rw [List.enumFrom_cons, List.length_cons, List.range'_succ,
        List.countP_cons, List.countP_cons]
      have htail : (List.range' (k + 1) qs.length).countP (fun i =>
            answers.lookup i == some (((q :: qs).getD (i - k) default).correctAnswer))
          = (List.range' (k + 1) qs.length).countP (fun i =>
            answers.lookup i == some ((qs.getD (i - (k + 1)) default).correctAnswer)) := by
        rw [List.countP_eq_length_filter, List.countP_eq_length_filter]
        congr 1
        refine List.filter_congr fun i hi => ?_
        obtain ⟨j, hj, rfl⟩ := List.mem_range'.1 hi
        have hik : k + 1 + 1 * j - k = (k + 1 + 1 * j - (k + 1)) + 1 := by omega
        rw [hik, List.getD_cons_succ]
      rw [htail, ih (k + 1), Nat.sub_self, List.getD_cons_zero]

/-- C3: the quiz score computed on submit equals the number of question
indices whose recorded answer equals that question's `correctAnswer`; and when
nothing is recorded the score is 0 (an unanswered index never counts). -/
theorem submitQuiz_counts_correct_indices (questions : List QuizQuestion)
    (answers : List (Nat × String)) :
    submitQuiz questions answers
      = ((List.range questions.length).filter fun i =>
          answers.lookup i == some ((questions.getD i default).correctAnswer)).length
    ∧ ((∀ i, answers.lookup i = none) → submitQuiz questions answers = 0) := by
  have main : submitQuiz questions answers
      = ((List.range questions.length).filter fun i =>
          answers.lookup i == some ((questions.getD i default).correctAnswer)).length := by
    unfold submitQuiz
    rw [List.enum_eq_enumFrom, foldl_if_eq_countP, countP_enumFrom_lookup,
      List.range_eq_range']
    simp [List.countP_eq_length_filter]
  refine ⟨main, fun hnone => ?_⟩
  rw [main, ← List.countP_eq_length_filter]
  refine List.countP_eq_zero.2 fun i _ => ?_
  simp [hnone i]

/-- C3 witness: with no recorded answers the submitted score is 0. -/
theorem submitQuiz_counts_correct_indices_witness :
    submitQuiz [⟨"Frage", ["a", "b", "c", "d"], "a"⟩] [] = 0 :=
  (submitQuiz_counts_correct_indices [⟨"Frage", ["a", "b", "c", "d"], "a"⟩] []).2
    (fun _ => rfl)

/-- A parsed cloze response whose text holds one blank marker while its
answer array holds two answers. -/
def clozeMismatch : Json :=
  Json.obj [("clozeText", Json.str "Ich habe ein [___] gesehen."),
            ("answers", Json.arr [Json.str "Haus", Json.str "Auto"])]

/-- C1 counterexample: `generateClozeTest` returns a parsed value whose
blank-marker count (1) differs from its answer count (2) instead of
rejecting it — there is no defensive validation. -/
theorem clozeTest_returns_mismatched_value :
    decodeCloze clozeMismatch
      = some ⟨"Ich habe ein [___] gesehen.", ["Haus", "Auto"]⟩
    ∧ countMarkers "Ich habe ein [___] gesehen." = 1
    ∧ (["Haus", "Auto"] : List String).length = 2
    ∧ generateClozeTest (.success "raw" (some clozeMismatch)) = .ok clozeMismatch :=
  ⟨rfl, by decide, rfl, rfl⟩

/-- C1 (amended): neither cloze generator validates the blank-count
contract: every successfully parsed value, even one decoding to an exercise
whose `[___]` count differs from its answer count, is returned to the caller
unchanged. -/
theorem clozeTest_no_blank_validation (raw : String) (j : Json) (c : ClozeExercise)
    (_hdec : decodeCloze j = some c)
    (_hmis : countMarkers c.clozeText ≠ c.answers.length) :
    generateClozeTest (.success raw (some j)) = .ok j
    ∧ generateClozeTestFromText (.success raw (some j)) = .ok j :=
  ⟨rfl, rfl⟩

/-- C1 witness: the mismatched value above is passed through by both
entry points. -/
theorem clozeTest_no_blank_validation_witness :
    generateClozeTest (.success "" (some clozeMismatch)) = .ok clozeMismatch
    ∧ generateClozeTestFromText (.success "" (some clozeMismatch)) = .ok clozeMismatch :=
  clozeTest_no_blank_validation "" clozeMismatch
    ⟨"Ich habe ein [___] gesehen.", ["Haus", "Auto"]⟩ rfl (by decide)

/-- A parsed quiz response with one question carrying three options, a
duplicated option, and a correct answer outside the options. -/
def quizInvalid : Json :=
  Json.arr [Json.obj [("question", Json.str "Was ist das?"),
                      ("options", Json.arr [Json.str "a", Json.str "a", Json.str "b"]),
                      ("correctAnswer", Json.str "z")]]

/-- C2 counterexample: `generateQuiz` returns a parsed question violating
every part of the options contract (3 options, a duplicate, correctAnswer
not among them) instead of treating it as a parse failure. -/
theorem generateQuiz_returns_invalid_question :
    decodeQuiz quizInvalid = some [⟨"Was ist das?", ["a", "a", "b"], "z"⟩]
    ∧ (["a", "a", "b"] : List String).length ≠ 4
    ∧ ¬ (["a", "a", "b"] : List String).Nodup
    ∧ "z" ∉ (["a", "a", "b"] : List String)
    ∧ generateQuiz (.success "raw" (some quizInvalid)) = .ok quizInvalid :=
  ⟨rfl, by decide, by decide, by decide, rfl⟩

/-- C2 (amended): `generateQuiz` performs no post-parse validation of the
options contract: any successfully parsed value, even one decoding to
questions with the wrong option count, duplicate options, or a correct
answer outside the options, is returned unchanged; only a malformed-JSON
parse failure fails (with its distinct message). -/
theorem generateQuiz_no_option_validation (raw : String) (j : Json)
    (qs : List QuizQuestion) (_hdec : decodeQuiz j = some qs)
    (_hbad : ∃ q ∈ qs,
      q.options.length ≠ 4 ∨ ¬ q.options.Nodup ∨ q.correctAnswer ∉ q.options) :
    generateQuiz (.success raw (some j)) = .ok j
    ∧ generateQuiz (.success raw none)
        = .error "Test oluşturulamadı çünkü modelden geçersiz bir yanıt alındı. Lütfen farklı bir metinle tekrar deneyin." :=
  ⟨rfl, rfl⟩

/-- C2 witness: the invalid question above is passed through. -/
theorem generateQuiz_no_option_validation_witness :
    generateQuiz (.success "" (some quizInvalid)) = .ok quizInvalid
    ∧ generateQuiz (.success "" none)
        = .error "Test oluşturulamadı çünkü modelden geçersiz bir yanıt alındı. Lütfen farklı bir metinle tekrar deneyin." :=
  generateQuiz_no_option_validation "" quizInvalid
    [⟨"Was ist das?", ["a", "a", "b"], "z"⟩] rfl (by decide)

/-- A parsed sentence-translation response that is not an array of
`{german, turkish}` pairs at all. -/
def pairsInvalid : Json :=
  Json.obj [("foo", Json.null)]

/-- C5 counterexample: `translateTextSentenceBySentence` returns a parsed
value that does not even have the declared array-of-pairs shape, instead of
failing closed. -/
theorem sentence_translation_returns_unvalidated_shape :
    decodeTranslationPairs pairsInvalid = none
    ∧ translateTextSentenceBySentence (.success "raw" (some pairsInvalid))
        = .ok pairsInvalid :=
  ⟨rfl, rfl⟩

/-- C5 (amended): `translateTextSentenceBySentence` performs no shape
validation: any successfully parsed JSON value, even one that is not an
array of entries with both required fields, is returned to the caller; the
operation fails only on a transport error or a `JSON.parse` failure, both
with the same generic domain message. -/
theorem sentence_translation_no_shape_validation (raw : String) (j : Json)
    (_hshape : decodeTranslationPairs j = none) :
    translateTextSentenceBySentence (.success raw (some j)) = .ok j
    ∧ translateTextSentenceBySentence (.success raw none)
        = .error "Cümle çevirisi sırasında bir hata oluştu." :=
  ⟨rfl, rfl⟩

/-- C5 witness: the shapeless value above is passed through. -/
theorem sentence_translation_no_shape_validation_witness :
    translateTextSentenceBySentence (.success "" (some pairsInvalid)) = .ok pairsInvalid
    ∧ translateTextSentenceBySentence (.success "" none)
        = .error "Cümle çevirisi sırasında bir hata oluştu." :=
  sentence_translation_no_shape_validation "" pairsInvalid rfl

/-- C4 counterexample: for `translateTextSentenceBySentence` a malformed-JSON
parse failure produces exactly the same error as a transport failure, so the
parse sub-kind is not distinct for this JSON-parsing operation. -/
theorem sentence_translation_parse_error_not_distinct :
    translateTextSentenceBySentence (.success "kein JSON" none)
      = .error "Cümle çevirisi sırasında bir hata oluştu."
    ∧ translateTextSentenceBySentence (.transportError "fetch failed")
      = .error "Cümle çevirisi sırasında bir hata oluştu." :=
  ⟨rfl, rfl⟩

/-- C4 (amended): every Content Service operation normalizes any transport
or parse failure to a fixed short user-facing message, independent of the
underlying exception; but only `generateQuiz` raises a distinct message for
a malformed-JSON parse failure — the other JSON-parsing operations reuse
their generic message. -/
theorem service_errors_normalized (e raw : String) :
    generateText (.transportError e)
      = .error "Metin oluşturulurken bir hata oluştu. Lütfen tekrar deneyin."
    ∧ generateRandomTheme (.transportError e)
      = .error "Rastgele tema oluşturulurken bir hata oluştu."
    ∧ translateText (.transportError e) = .error "Çeviri sırasında bir hata oluştu."
    ∧ translateWord (.transportError e)
      = .error "Kelime çevirisi sırasında bir hata oluştu."
    ∧ translateTextSentenceBySentence (.transportError e)
      = .error "Cümle çevirisi sırasında bir hata oluştu."
    ∧ translateTextSentenceBySentence (.success raw none)
      = .error "Cümle çevirisi sırasında bir hata oluştu."
    ∧ generateQuiz (.transportError e) = .error "Test oluşturulurken bir hata oluştu."
    ∧ generateQuiz (.success raw none)
      = .error "Test oluşturulamadı çünkü modelden geçersiz bir yanıt alındı. Lütfen farklı bir metinle tekrar deneyin."
    ∧ explainAndExampleWord (.transportError e)
      = .error "Kelime açıklanırken bir hata oluştu."
    ∧ explainAndExampleWord (.success raw none)
      = .error "Kelime açıklanırken bir hata oluştu."
    ∧ generateClozeTest (.transportError e)
      = .error "Öğrenme modu içeriği oluşturulurken bir hata oluştu."
    ∧ generateClozeTest (.success raw none)
      = .error "Öğrenme modu içeriği oluşturulurken bir hata oluştu."
    ∧ generateDistractors (.transportError e)
      = .error "Alternatif şıklar oluşturulurken bir hata oluştu."
    ∧ generateDistractors (.success raw none)
      = .error "Alternatif şıklar oluşturulurken bir hata oluştu."
    ∧ generateClozeTestFromText (.transportError e)
      = .error "Metinden öğrenme modu içeriği oluşturulurken bir hata oluştu."
    ∧ generateClozeTestFromText (.success raw none)
      = .error "Metinden öğrenme modu içeriği oluşturulurken bir hata oluştu."
    ∧ ("Test oluşturulamadı çünkü modelden geçersiz bir yanıt alındı. Lütfen farklı bir metinle tekrar deneyin."
        : String) ≠ "Test oluşturulurken bir hata oluştu." :=
  ⟨rfl, rfl, rfl, rfl, rfl, rfl, rfl, rfl, rfl, rfl, rfl, rfl, rfl, rfl, rfl, rfl,
   by decide⟩

/-- C8 counterexample: the clearing prefix of `handleGenerate` leaves the
speech position (`speakingSentenceIndex`) untouched: started from a state
that is speaking sentence 2, the cleared state still records sentence 2. -/
theorem generate_preserves_speech_position :
    (handleGenerateClear
        { level := CEFRLevel.B1, theme := "Alt", wordCount := 150, mood := "neutral",
          isLoading := false, error := none, generatedText := "alter Text",
          translatedSentences := [], quizQuestions := [], favoriteLists := [],
          savedTexts := [], currentQuizQuestion := 3, quizAnswers := [(0, "x")],
          quizScore := some 1, isSpeaking := true, speakingSentenceIndex := some 2,
          isTextClozeMode := false, textClozeData := none }
        CEFRLevel.A2 "Berlin" "froh").speakingSentenceIndex = some 2 :=
  rfl

/-- C8 (amended): before issuing the generation calls, `handleGenerate`
clears the quiz answers, quiz score, current question, cloze data and mode,
and prior content, and sets the new request parameters — but it does not
touch the speech position or speaking flag, which keep their prior values. -/
theorem generateClear_resets_derived_state (s : AppState) (lvl : CEFRLevel)
    (th md : String) :
    (handleGenerateClear s lvl th md).quizAnswers = []
    ∧ (handleGenerateClear s lvl th md).quizScore = none
    ∧ (handleGenerateClear s lvl th md).currentQuizQuestion = 0
    ∧ (handleGenerateClear s lvl th md).textClozeData = none
    ∧ (handleGenerateClear s lvl th md).isTextClozeMode = false
    ∧ (handleGenerateClear s lvl th md).generatedText = ""
    ∧ (handleGenerateClear s lvl th md).translatedSentences = []
    ∧ (handleGenerateClear s lvl th md).quizQuestions = []
    ∧ (handleGenerateClear s lvl th md).error = none
    ∧ (handleGenerateClear s lvl th md).isLoading = true
    ∧ (handleGenerateClear s lvl th md).level = lvl
    ∧ (handleGenerateClear s lvl th md).theme = th
    ∧ (handleGenerateClear s lvl th md).mood = md
    ∧ (handleGenerateClear s lvl th md).speakingSentenceIndex = s.speakingSentenceIndex
    ∧ (handleGenerateClear s lvl th md).isSpeaking = s.isSpeaking
    ∧ (handleGenerateClear s lvl th md).savedTexts = s.savedTexts
    ∧ (handleGenerateClear s lvl th md).favoriteLists = s.favoriteLists :=
  ⟨rfl, rfl, rfl, rfl, rfl, rfl, rfl, rfl, rfl, rfl, rfl, rfl, rfl, rfl, rfl, rfl, rfl⟩

/-- C9 counterexample: with two saved entries the exported file is not the
plain concatenation of the two titled blocks — `join('\n')` inserts an extra
newline between them. -/
theorem export_not_plain_concatenation :
    handleExportTexts
        [⟨"T1", "a", CEFRLevel.A2, [], []⟩, ⟨"T2", "b", CEFRLevel.B1, [], []⟩]
      ≠ some (exportSpecConcat
        [⟨"T1", "a", CEFRLevel.A2, [], []⟩, ⟨"T2", "b", CEFRLevel.B1, [], []⟩]) := by
  decide

/-- Joining the mapped blocks with a newline separator agrees with the
direct block-by-block recursion. -/
theorem joinWith_map_block (texts : List SavedText) :
    joinWith "\n" (texts.map savedTextBlock) = exportJoined texts := by
  induction texts with
  | nil => rfl
  | cons t rest ih =>
      cases rest with
      | nil => rfl
      | cons t2 rest2 =>
          simp only [List.map_cons] at ih ⊢
          rw [show joinWith "\n"
                (savedTextBlock t :: savedTextBlock t2 :: rest2.map savedTextBlock)
              = savedTextBlock t ++ "\n" ++ joinWith "\n"
                (savedTextBlock t2 :: rest2.map savedTextBlock) from rfl]
          rw [show exportJoined (t :: t2 :: rest2)
              = savedTextBlock t ++ "\n" ++ exportJoined (t2 :: rest2) from rfl]
          rw [ih]

/-- C9 (amended): for every non-empty archive the exported file consists of
one titled block per entry in archive order, with a single newline separator
between consecutive blocks (so one extra blank line separates entries). -/
theorem export_blocks_newline_joined (texts : List SavedText) (h : texts ≠ []) :
    handleExportTexts texts = some (exportJoined texts) := by
  cases texts with
  | nil => exact absurd rfl h
  | cons t rest =>
      unfold handleExportTexts
      rw [if_neg (by simp), joinWith_map_block]

/-- C9 witness: a one-entry archive exports its single block. -/
theorem export_blocks_newline_joined_witness :
    handleExportTexts [⟨"T1", "a", CEFRLevel.A2, [], []⟩]
      = some (exportJoined [⟨"T1", "a", CEFRLevel.A2, [], []⟩]) :=
  export_blocks_newline_joined [⟨"T1", "a", CEFRLevel.A2, [], []⟩]
    (List.cons_ne_nil _ _)

end DeutschMeister
